import Mathlib

/-!
Verification development for the MeltingSimulation MPM solver core.

Shallow embedding of the grid data structures and the per-step operations
of `Grid.cpp`, `Grid_Temperature.cpp` and the headers, over exact rational
arithmetic.  Definitions are translated from the C++ source; the few
mathematical kernels whose implementation file (`MathFunctions.cpp`) is not
part of the provided sources are modelled from the specification and are
marked as such in their doc comments.
-/

namespace MeltSim

/-- Phase of a particle, from `Particle.h`. -/
inductive Phase where
  | Solid
  | Liquid
deriving DecidableEq

/-- Three-state classification of cell centres and faces (`Grid.h` via usage
in `Grid.cpp`). -/
inductive State where
  | Interior
  | Empty
  | Colliding
deriving DecidableEq

/-- A 3-vector of exact rationals, standing for `Eigen::Vector3f`. -/
structure Vec3 where
  x : ℚ
  y : ℚ
  z : ℚ
deriving DecidableEq

/-- A cell index triple (i, j, k). -/
abbrev Cell : Type := ℤ × ℤ × ℤ

/-- The particle state read during particle-to-grid transfer, from
`Particle.h` (fields `m_position`, `m_mass`, `m_velocity`, `m_phase`,
`m_temperature`, `m_detDeformGrad`, `m_detDeformGradElastic`,
`m_lameLambda`). -/
structure Particle where
  position : Vec3
  mass : ℚ
  velocity : Vec3
  phase : Phase
  temperature : ℚ
  detDeformGrad : ℚ
  detDeformGradElastic : ℚ
  lameLambdaInverse : ℚ
deriving DecidableEq

/-- The material constants a cell reads from the owning emitter
(`Emitter` fields used in `Grid::transferParticleData`). -/
structure EmitterConsts where
  heatConductivitySolid : ℚ
  heatConductivityFluid : ℚ
  heatCapacitySolid : ℚ
  heatCapacityFluid : ℚ
deriving DecidableEq

/-- Modelled from the spec: the cubic B-spline weight `N`
(`MathFunctions::calcCubicBSpline`; `MathFunctions.cpp` is not among the
provided sources).  Support `|x| <= 2`, piecewise cubic with `N 0 = 2/3`
and `N 1 = 1/6`, zero outside, the standard MPM kernel. -/
def calcCubicBSpline (x : ℚ) : ℚ :=
  if |x| < 1 then (1/2) * |x|^3 - x^2 + 2/3
  else if |x| < 2 then (2 - |x|)^3 / 6
  else 0

/-- Modelled from the spec: particle-cell lookup
(`MathFunctions::getParticleGridCell`; implementation file missing): the
integer cell of a particle, from its position relative to the grid edge
origin, one floor division per axis. -/
def getParticleGridCell (pos : Vec3) (cellSize : ℚ) (edge : Vec3) : Cell :=
  (⌊(pos.x - edge.x) / cellSize⌋, ⌊(pos.y - edge.y) / cellSize⌋, ⌊(pos.z - edge.z) / cellSize⌋)

/-- The grid-defining data set up by the `Grid` constructor
(`Grid.cpp` lines 14-118): cell count per side, cell size, and the origin,
which is the centre of cell (0,0,0). -/
structure GridCfg where
  noCells : ℤ
  cellSize : ℚ
  origin : Vec3
deriving DecidableEq

/-- The `Grid` constructor (`Grid.cpp` lines 14-118): cell size is
`boundingBoxSize / (noCells - 2)` and the origin is the edge origin pulled
back by half a cell on each axis. -/
def gridConstruct (originEdge : Vec3) (boundingBoxSize : ℚ) (noCells : ℤ) : GridCfg :=
  let h := boundingBoxSize / ((noCells : ℚ) - 2)
  { noCells := noCells
    cellSize := h
    origin := ⟨originEdge.x - h/2, originEdge.y - h/2, originEdge.z - h/2⟩ }

/-- The grid edge position recomputed in `Grid::findParticleContributionToCell`
(`Grid.cpp` lines 462-466): the origin minus half a cell on each axis. -/
def gridEdgePosition (g : GridCfg) : Vec3 :=
  ⟨g.origin.x - g.cellSize/2, g.origin.y - g.cellSize/2, g.origin.z - g.cellSize/2⟩

/-- The cell the particle lies in, as computed in
`Grid::findParticleContributionToCell` (`Grid.cpp` line 476). -/
def particleCellIndex (g : GridCfg) (p : Particle) : Cell :=
  getParticleGridCell p.position g.cellSize (gridEdgePosition g)

/-- The bounds check of the candidate-cell loop
(`Grid.cpp` line 490): `0 <= i <= n-1` on each axis. -/
def inGridBounds (g : GridCfg) (c : Cell) : Prop :=
  0 ≤ c.1 ∧ c.1 ≤ g.noCells - 1 ∧ 0 ≤ c.2.1 ∧ c.2.1 ≤ g.noCells - 1 ∧
    0 ≤ c.2.2 ∧ c.2.2 ≤ g.noCells - 1

instance (g : GridCfg) (c : Cell) : Decidable (inGridBounds g c) := by
  unfold inGridBounds; infer_instance

/-- The six loop values `a-2, ..., a+3` of one axis of the candidate loop
(`Grid.cpp` lines 483-487). -/
def axisRange (a : ℤ) : List ℤ :=
  (List.range 6).map (fun t => a - 2 + (t : ℤ))

/-- The unclipped 6x6x6 candidate cells around a particle's cell, in the
k-outer, j-middle, i-inner order of `Grid::findParticleContributionToCell`. -/
def candidateCellsUnclipped (g : GridCfg) (p : Particle) : List Cell :=
  let ip := (particleCellIndex g p).1
  let jp := (particleCellIndex g p).2.1
  let kp := (particleCellIndex g p).2.2
  (axisRange kp).flatMap (fun k =>
    (axisRange jp).flatMap (fun j =>
      (axisRange ip).map (fun i => ((i, j, k) : Cell))))

/-- The candidate cells the accumulation pass actually visits for a particle:
the 6x6x6 block clipped to the grid (`Grid.cpp` lines 483-497). -/
def candidateCells (g : GridCfg) (p : Particle) : List Cell :=
  (candidateCellsUnclipped g p).filter (fun c => decide (inGridBounds g c))

/-- The four interpolation sites of a cell in `Grid::calcInterpolationWeights`:
the cell centre and the three lower faces. -/
inductive Site where
  | centre
  | faceX
  | faceY
  | faceZ
deriving DecidableEq

/-- World position of a site of cell (i,j,k)
(`Grid.cpp` lines 526-537): the centre is `(i*h, j*h, k*h) + origin` and a
face is the centre pulled back by half a cell along its axis. -/
def sitePosition (g : GridCfg) (s : Site) (c : Cell) : Vec3 :=
  let xPos := (c.1 : ℚ) * g.cellSize + g.origin.x
  let yPos := (c.2.1 : ℚ) * g.cellSize + g.origin.y
  let zPos := (c.2.2 : ℚ) * g.cellSize + g.origin.z
  let half := g.cellSize / 2
  match s with
  | Site.centre => ⟨xPos, yPos, zPos⟩
  | Site.faceX => ⟨xPos - half, yPos, zPos⟩
  | Site.faceY => ⟨xPos, yPos - half, zPos⟩
  | Site.faceZ => ⟨xPos, yPos, zPos - half⟩

/-- The cubic B-spline tensor-product weight of a particle at a site
(`Grid.cpp` lines 546-577): the product of the three one-axis weights of the
position difference divided by the cell size. -/
def siteWeight (g : GridCfg) (p : Particle) (s : Site) (c : Cell) : ℚ :=
  let d := sitePosition g s c
  calcCubicBSpline ((p.position.x - d.x) / g.cellSize) *
    calcCubicBSpline ((p.position.y - d.y) / g.cellSize) *
    calcCubicBSpline ((p.position.z - d.z) / g.cellSize)

/-- One interpolation record (`InterpolationData`): the contributing particle
and its stored cubic B-spline weight, the only fields the transfer,
volume-initialisation and classification passes read. -/
structure InterpRecord where
  particle : Particle
  cubicBSpline : ℚ
deriving DecidableEq

/-- The record `Grid::calcInterpolationWeights` appends for one particle at
one site of one cell: created exactly when the cubic B-spline product is
non-zero (`Grid.cpp` lines 584, 638, 692, 746). -/
def interpRecordAt (g : GridCfg) (p : Particle) (s : Site) (c : Cell) :
    Option InterpRecord :=
  let w := siteWeight g p s c
  if w ≠ 0 then some ⟨p, w⟩ else none

/-- The interpolation list of one site of one cell after
`Grid::findParticleContributionToCell` ran over the particle list: the outer
loop runs over particles in order and, since the candidate block visits each
cell at most once per particle, appends at most one record per particle, so
the per-cell list is this flattening of the two loops. -/
def siteList (g : GridCfg) (ps : List Particle) (s : Site) (c : Cell) :
    List InterpRecord :=
  ps.filterMap (fun p =>
    if c ∈ candidateCells g p then interpRecordAt g p s c else none)

/-- Aggregates of one cell face after transfer (`CellFace` fields
`m_mass`, `m_velocity`, `m_heatConductivity`). -/
structure FaceData where
  mass : ℚ
  velocity : ℚ
  heatConductivity : ℚ
deriving DecidableEq

/-- The face aggregates a cleared cell holds (`Grid::clearCellData`,
`Grid.cpp` lines 410-435): all zero. -/
def clearedFaceData : FaceData := ⟨0, 0, 0⟩

/-- The velocity component a face reads from a particle: the component along
the face normal (`Grid.cpp` lines 846, 886, 926). -/
def faceVelocityComponent (s : Site) (v : Vec3) : ℚ :=
  match s with
  | Site.centre => 0
  | Site.faceX => v.x
  | Site.faceY => v.y
  | Site.faceZ => v.z

/-- Modelled from the spec: heat conductivity chosen by particle phase
(`Grid.cpp` lines 853-861; reads emitter constants, as the spec describes). -/
def heatConductivityOf (em : EmitterConsts) (ph : Phase) : ℚ :=
  match ph with
  | Phase.Solid => em.heatConductivitySolid
  | Phase.Liquid => em.heatConductivityFluid

/-- Modelled from the spec: heat capacity chosen by particle phase
(`Grid.cpp` lines 978-986). -/
def heatCapacityOf (em : EmitterConsts) (ph : Phase) : ℚ :=
  match ph with
  | Phase.Solid => em.heatCapacitySolid
  | Phase.Liquid => em.heatCapacityFluid

/-- One iteration of the per-face accumulation loop of
`Grid::transferParticleData` (`Grid.cpp` lines 836-864): add `N*m`,
`N*m*v_comp` and `N*m*kappa_phase` to the face aggregates. -/
def accumFace (em : EmitterConsts) (s : Site) (fd : FaceData)
    (r : InterpRecord) : FaceData :=
  let w := r.cubicBSpline
  let m := r.particle.mass
  { mass := fd.mass + w * m
    velocity := fd.velocity + (w * m) * faceVelocityComponent s r.particle.velocity
    heatConductivity :=
      fd.heatConductivity + (w * m) * heatConductivityOf em r.particle.phase }

/-- The per-face part of `Grid::transferParticleData`
(`Grid.cpp` lines 832-870): if the interpolation list is non-empty,
accumulate over it starting from the cleared aggregates and then multiply
velocity and conductivity by `1/mass`; otherwise the cleared zeros remain. -/
def transferFace (em : EmitterConsts) (s : Site) (l : List InterpRecord) :
    FaceData :=
  if l.length ≠ 0 then
    let acc := l.foldl (accumFace em s) clearedFaceData
    { acc with
      velocity := acc.velocity * (1 / acc.mass)
      heatConductivity := acc.heatConductivity * (1 / acc.mass) }
  else clearedFaceData

/-- Aggregates of one cell centre after transfer (`CellCentre` fields). -/
structure CentreData where
  mass : ℚ
  detDeformationGrad : ℚ
  detDeformationGradElastic : ℚ
  detDeformationGradPlastic : ℚ
  heatCapacity : ℚ
  temperature : ℚ
  lameLambdaInverse : ℚ
deriving DecidableEq

/-- The centre aggregates a cleared cell holds (`Grid::clearCellData`,
`Grid.cpp` lines 397-408): all zero. -/
def clearedCentreData : CentreData := ⟨0, 0, 0, 0, 0, 0, 0⟩

/-- One iteration of the cell-centre accumulation loop of
`Grid::transferParticleData` (`Grid.cpp` lines 956-988). -/
def accumCentre (em : EmitterConsts) (cd : CentreData) (r : InterpRecord) :
    CentreData :=
  let w := r.cubicBSpline
  let m := r.particle.mass
  { cd with
    mass := cd.mass + w * m
    detDeformationGrad := cd.detDeformationGrad + (w * m) * r.particle.detDeformGrad
    detDeformationGradElastic :=
      cd.detDeformationGradElastic + (w * m) * r.particle.detDeformGradElastic
    temperature := cd.temperature + (w * m) * r.particle.temperature
    lameLambdaInverse :=
      cd.lameLambdaInverse + (w * m) * r.particle.lameLambdaInverse
    heatCapacity := cd.heatCapacity + (w * m) * heatCapacityOf em r.particle.phase }

/-- The cell-centre part of `Grid::transferParticleData`
(`Grid.cpp` lines 952-1001): if the interpolation list is non-empty,
accumulate, divide the mass-weighted aggregates by the mass, and set the
plastic determinant to `J / J_E`; otherwise the cleared zeros remain. -/
def transferCentre (em : EmitterConsts) (l : List InterpRecord) : CentreData :=
  if l.length ≠ 0 then
    let acc := l.foldl (accumCentre em) clearedCentreData
    let divided :=
      { acc with
        detDeformationGrad := acc.detDeformationGrad * (1 / acc.mass)
        detDeformationGradElastic := acc.detDeformationGradElastic * (1 / acc.mass)
        heatCapacity := acc.heatCapacity * (1 / acc.mass)
        temperature := acc.temperature * (1 / acc.mass)
        lameLambdaInverse := acc.lameLambdaInverse * (1 / acc.mass) }
    { divided with
      detDeformationGradPlastic :=
        divided.detDeformationGrad * (1 / divided.detDeformationGradElastic) }
  else clearedCentreData

/-- All cells of the grid, `(i,j,k)` with each axis in `[0, noCells-1]`,
the flat-index loop `for cellIndex in [0, n^3)` of the per-cell passes. -/
def allCells (g : GridCfg) : List Cell :=
  (List.range g.noCells.toNat).flatMap (fun k : ℕ =>
    (List.range g.noCells.toNat).flatMap (fun j : ℕ =>
      (List.range g.noCells.toNat).map (fun i : ℕ =>
        (((i : ℤ), (j : ℤ), (k : ℤ)) : Cell))))

/-- The total mass aggregated over all cell centres after
`Grid::transferParticleData`. -/
def totalCentreMass (g : GridCfg) (em : EmitterConsts) (ps : List Particle) : ℚ :=
  ((allCells g).map (fun c =>
    (transferCentre em (siteList g ps Site.centre c)).mass)).sum

/-- The total mass of a particle list. -/
def totalParticleMass (ps : List Particle) : ℚ :=
  (ps.map Particle.mass).sum

/-- The grid fields `Grid::classifyCells` reads apart from the cell arrays:
cell count, non-empty particle threshold, and the surrounding temperatures. -/
structure ClassifyParams where
  noCells : ℤ
  noParticlesThreshold : ℕ
  ambientTemperature : ℚ
  heatSourceTemperature : ℚ
deriving DecidableEq

/-- The per-cell data `Grid::classifyCells` reads: the interpolation-list
sizes of the centre and the three faces, and the centre temperature left by
the transfer pass. -/
structure ClassifyInput where
  centreCount : Cell → ℕ
  faceXCount : Cell → ℕ
  faceYCount : Cell → ℕ
  faceZCount : Cell → ℕ
  centreTemperature : Cell → ℚ

/-- A cell index inside an `n`-per-side grid: each axis in `[0, n-1]`. -/
def cellInGrid (n : ℤ) (c : Cell) : Prop :=
  0 ≤ c.1 ∧ c.1 ≤ n - 1 ∧ 0 ≤ c.2.1 ∧ c.2.1 ≤ n - 1 ∧
    0 ≤ c.2.2 ∧ c.2.2 ≤ n - 1

instance (n : ℤ) (c : Cell) : Decidable (cellInGrid n c) := by
  unfold cellInGrid; infer_instance

/-- A cell on the static box walls: some axis index is `0` or `n-1`
(`Grid.cpp` line 1079). -/
def isBoundaryCell (n : ℤ) (c : Cell) : Prop :=
  c.1 = 0 ∨ c.1 = n - 1 ∨ c.2.1 = 0 ∨ c.2.1 = n - 1 ∨ c.2.2 = 0 ∨ c.2.2 = n - 1

instance (n : ℤ) (c : Cell) : Decidable (isBoundaryCell n c) := by
  unfold isBoundaryCell; infer_instance

/-- X-face state after the first pass of `Grid::classifyCells`
(`Grid.cpp` lines 1067-1100): colliding for boundary cells and for `i = 1`. -/
def pass1FaceXColliding (n : ℤ) (c : Cell) : Prop :=
  isBoundaryCell n c ∨ c.1 = 1

/-- Y-face first-pass colliding condition (`Grid.cpp` lines 1079-1095). -/
def pass1FaceYColliding (n : ℤ) (c : Cell) : Prop :=
  isBoundaryCell n c ∨ c.2.1 = 1

/-- Z-face first-pass colliding condition (`Grid.cpp` lines 1079-1099). -/
def pass1FaceZColliding (n : ℤ) (c : Cell) : Prop :=
  isBoundaryCell n c ∨ c.2.2 = 1

instance (n : ℤ) (c : Cell) : Decidable (pass1FaceXColliding n c) := by
  unfold pass1FaceXColliding; infer_instance

instance (n : ℤ) (c : Cell) : Decidable (pass1FaceYColliding n c) := by
  unfold pass1FaceYColliding; infer_instance

instance (n : ℤ) (c : Cell) : Decidable (pass1FaceZColliding n c) := by
  unfold pass1FaceZColliding; infer_instance

/-- The upper-X-face count read during classification: the X-face count of
cell `(i+1,j,k)`, but `0` for the outermost cells
(`Grid.cpp` lines 1132-1147). -/
def upperFaceXCount (P : ClassifyParams) (inp : ClassifyInput) (c : Cell) : ℕ :=
  if c.1 = P.noCells - 1 then 0 else inp.faceXCount (c.1 + 1, c.2.1, c.2.2)

/-- The upper-Y-face count read during classification. -/
def upperFaceYCount (P : ClassifyParams) (inp : ClassifyInput) (c : Cell) : ℕ :=
  if c.2.1 = P.noCells - 1 then 0 else inp.faceYCount (c.1, c.2.1 + 1, c.2.2)

/-- The upper-Z-face count read during classification. -/
def upperFaceZCount (P : ClassifyParams) (inp : ClassifyInput) (c : Cell) : ℕ :=
  if c.2.2 = P.noCells - 1 then 0 else inp.faceZCount (c.1, c.2.1, c.2.2 + 1)

/-- The interior test of `Grid::classifyCells` (`Grid.cpp` lines 1157-1163):
the centre count and the six surrounding face counts all exceed the
threshold. -/
def interiorTest (P : ClassifyParams) (inp : ClassifyInput) (c : Cell) : Prop :=
  P.noParticlesThreshold < inp.centreCount c ∧
  P.noParticlesThreshold < upperFaceXCount P inp c ∧
  P.noParticlesThreshold < inp.faceXCount c ∧
  P.noParticlesThreshold < upperFaceYCount P inp c ∧
  P.noParticlesThreshold < inp.faceYCount c ∧
  P.noParticlesThreshold < upperFaceZCount P inp c ∧
  P.noParticlesThreshold < inp.faceZCount c

instance (P : ClassifyParams) (inp : ClassifyInput) (c : Cell) :
    Decidable (interiorTest P inp c) := by
  unfold interiorTest; infer_instance

/-- The result of the second classification pass for one cell: new centre
state and temperature, and whether each of its own faces was downgraded to
empty. -/
structure CellClassified where
  centreState : State
  centreTemperature : ℚ
  faceXEmptied : Bool
  faceYEmptied : Bool
  faceZEmptied : Bool
deriving DecidableEq

/-- The classification taken in every non-colliding branch
(`Grid.cpp` lines 1157-1172 and its repetitions): interior when the seven
counts all exceed the threshold, otherwise empty with ambient temperature. -/
def classifyBranch (P : ClassifyParams) (inp : ClassifyInput) (c : Cell) :
    State × ℚ :=
  if interiorTest P inp c then (State.Interior, inp.centreTemperature c)
  else (State.Empty, P.ambientTemperature)

/-- The body of the second pass of `Grid::classifyCells` for one cell
(`Grid.cpp` lines 1105-1509): the chain of face checks with early `continue`;
a cell whose six face checks are all colliding keeps its cleared Colliding
state and receives the heat-source temperature on the `j = 0` plane, or the
ambient temperature when no particle contributed to it. -/
def classifyCell (P : ClassifyParams) (inp : ClassifyInput) (c : Cell) :
    CellClassified :=
  if ¬ pass1FaceXColliding P.noCells c then
    { centreState := (classifyBranch P inp c).1
      centreTemperature := (classifyBranch P inp c).2
      faceXEmptied := decide (inp.faceXCount c ≤ P.noParticlesThreshold)
      faceYEmptied := false
      faceZEmptied := false }
  else if c.1 < P.noCells - 1 ∧
      ¬ pass1FaceXColliding P.noCells (c.1 + 1, c.2.1, c.2.2) then
    { centreState := (classifyBranch P inp c).1
      centreTemperature := (classifyBranch P inp c).2
      faceXEmptied := false, faceYEmptied := false, faceZEmptied := false }
  else if ¬ pass1FaceYColliding P.noCells c then
    { centreState := (classifyBranch P inp c).1
      centreTemperature := (classifyBranch P inp c).2
      faceXEmptied := false
      faceYEmptied := decide (inp.faceYCount c ≤ P.noParticlesThreshold)
      faceZEmptied := false }
  else if c.2.1 < P.noCells - 1 ∧
      ¬ pass1FaceYColliding P.noCells (c.1, c.2.1 + 1, c.2.2) then
    { centreState := (classifyBranch P inp c).1
      centreTemperature := (classifyBranch P inp c).2
      faceXEmptied := false, faceYEmptied := false, faceZEmptied := false }
  else if ¬ pass1FaceZColliding P.noCells c then
    { centreState := (classifyBranch P inp c).1
      centreTemperature := (classifyBranch P inp c).2
      faceXEmptied := false
      faceYEmptied := false
      faceZEmptied := decide (inp.faceZCount c ≤ P.noParticlesThreshold) }
  else if c.2.2 < P.noCells - 1 ∧
      ¬ pass1FaceZColliding P.noCells (c.1, c.2.1, c.2.2 + 1) then
    { centreState := (classifyBranch P inp c).1
      centreTemperature := (classifyBranch P inp c).2
      faceXEmptied := false, faceYEmptied := false, faceZEmptied := false }
  else
    { centreState := State.Colliding
      centreTemperature :=
        if c.2.1 = 0 then P.heatSourceTemperature
        else if inp.centreCount c = 0 then P.ambientTemperature
        else inp.centreTemperature c
      faceXEmptied := false, faceYEmptied := false, faceZEmptied := false }

/-- Final X-face state after `Grid::classifyCells`: the first pass may set it
colliding; the second pass can only downgrade a non-colliding face to empty,
in the cell's own iteration. -/
def classifyFaceXState (P : ClassifyParams) (inp : ClassifyInput) (c : Cell) :
    State :=
  if pass1FaceXColliding P.noCells c then State.Colliding
  else if (classifyCell P inp c).faceXEmptied then State.Empty
  else State.Interior

/-- Final Y-face state after `Grid::classifyCells`. -/
def classifyFaceYState (P : ClassifyParams) (inp : ClassifyInput) (c : Cell) :
    State :=
  if pass1FaceYColliding P.noCells c then State.Colliding
  else if (classifyCell P inp c).faceYEmptied then State.Empty
  else State.Interior

/-- Final Z-face state after `Grid::classifyCells`. -/
def classifyFaceZState (P : ClassifyParams) (inp : ClassifyInput) (c : Cell) :
    State :=
  if pass1FaceZColliding P.noCells c then State.Colliding
  else if (classifyCell P inp c).faceZEmptied then State.Empty
  else State.Interior

/-- The grid temperature fields `Grid::calcTemperature` touches. -/
structure TempGridState where
  temperature : Cell → ℚ
  previousTemperature : Cell → ℚ

/-- `Grid::calcTemperature` as implemented (`Grid_Temperature.cpp` lines
5-30): the loop stores the current temperature of every cell as its previous
temperature and nothing else; `setUpB_temperature`, `setUpA_temperature` and
`setBoundaryTemperature` (lines 34-85) have empty bodies, so no linear
system is assembled or solved and no temperature changes. -/
def calcTemperature (s : TempGridState) : TempGridState :=
  { temperature := s.temperature
    previousTemperature := fun c => s.temperature c }

/-- The sub-operations `Grid::update` can call, named after the source. -/
inductive StepOp where
  | clearCellData
  | findParticleContributionToCell
  | transferParticleData
  | calcInitialParticleVolumes
  | classifyCells
  | calcDeviatoricVelocity
  | setBoundaryVelocity
  | projectVelocity
  | calcTemperature
  | updateParticleFromGrid
deriving DecidableEq

/-- The call sequence of `Grid::update` as the source executes it
(`Grid.cpp` lines 282-360): the first-step volume initialisation runs after
`classifyCells`. -/
def gridUpdateSequence (isFirstStep : Bool) : List StepOp :=
  [StepOp.clearCellData, StepOp.findParticleContributionToCell,
   StepOp.transferParticleData, StepOp.classifyCells]
  ++ (if isFirstStep then [StepOp.calcInitialParticleVolumes] else [])
  ++ [StepOp.calcDeviatoricVelocity, StepOp.setBoundaryVelocity,
      StepOp.projectVelocity, StepOp.calcTemperature,
      StepOp.updateParticleFromGrid]

/-- The per-step call sequence exactly as the specification words it
(spec section 2, control flow per step): the first-step volume
initialisation precedes `classifyCells`.  Stated from the spec for
comparison with `gridUpdateSequence`. -/
def specUpdateSequence (isFirstStep : Bool) : List StepOp :=
  [StepOp.clearCellData, StepOp.findParticleContributionToCell,
   StepOp.transferParticleData]
  ++ (if isFirstStep then [StepOp.calcInitialParticleVolumes] else [])
  ++ [StepOp.classifyCells, StepOp.calcDeviatoricVelocity,
      StepOp.setBoundaryVelocity, StepOp.projectVelocity,
      StepOp.calcTemperature, StepOp.updateParticleFromGrid]

/-- The two surrounding-temperature fields of the grid. -/
structure SurroundingTemps where
  ambientTemperature : ℚ
  heatSourceTemperature : ℚ
deriving DecidableEq

/-- `Grid::setSurroundingTemperatures` (`Grid.cpp` lines 233-249): the two
inputs are stored directly into the member fields. -/
def setSurroundingTemperatures (ambientTemp heatSourceTemp : ℚ)
    (_g : SurroundingTemps) : SurroundingTemps :=
  { ambientTemperature := ambientTemp
    heatSourceTemperature := heatSourceTemp }

/-- The error `Grid::getGrid` throws when the singleton was never created. -/
inductive GridError where
  | notCreated
deriving DecidableEq

/-- `Grid::createGrid` (`Grid.cpp` lines 179-195): construct the instance
only when the stored one is null, and return the stored instance. -/
def createGrid (originEdge : Vec3) (boundingBoxSize : ℚ) (noCells : ℤ)
    (inst : Option GridCfg) : GridCfg × Option GridCfg :=
  match inst with
  | none =>
      let g := gridConstruct originEdge boundingBoxSize noCells
      (g, some g)
  | some g => (g, some g)

/-- `Grid::getGrid` (`Grid.cpp` lines 199-216): throw when the instance is
null, otherwise return it. -/
def getGrid (inst : Option GridCfg) : Except GridError GridCfg :=
  match inst with
  | none => Except.error GridError.notCreated
  | some g => Except.ok g

/-! Concrete configurations used by witnesses and counterexamples. -/

/-- A 4-cell-per-side grid of unit cells with its cell (0,0,0) centred at
the world origin. -/
def gridCE : GridCfg := { noCells := 4, cellSize := 1, origin := ⟨0, 0, 0⟩ }

/-- Emitter constants with unit conductivities and capacities. -/
def emCE : EmitterConsts := ⟨1, 1, 1, 1⟩

/-- A unit-mass solid particle near the lower x wall of `gridCE`: part of
its B-spline support along x falls outside the grid and is clipped. -/
def particleCE : Particle :=
  { position := ⟨3/5, 3/2, 3/2⟩, mass := 1, velocity := ⟨0, 0, 0⟩
    phase := Phase.Solid, temperature := 0, detDeformGrad := 1
    detDeformGradElastic := 1, lameLambdaInverse := 0 }

/-- A 6-cell-per-side grid of unit cells whose edge origin is the world
origin. -/
def gridW : GridCfg := { noCells := 6, cellSize := 1, origin := ⟨1/2, 1/2, 1/2⟩ }

/-- A unit-mass solid particle in the middle of `gridW`, far enough from all
walls that its full B-spline support lies inside the grid. -/
def particleW : Particle :=
  { position := ⟨2, 2, 2⟩, mass := 1, velocity := ⟨3, 0, 0⟩
    phase := Phase.Solid, temperature := 0, detDeformGrad := 1
    detDeformGradElastic := 1, lameLambdaInverse := 0 }

/-- An interpolation record holding `particleW` with full weight. -/
def recordW : InterpRecord := ⟨particleW, 1⟩

/-- Classification parameters of a 4-cell grid with the source's default
threshold 6, ambient temperature 3 and heat-source temperature 9. -/
def classifyParamsW : ClassifyParams :=
  { noCells := 4, noParticlesThreshold := 6
    ambientTemperature := 3, heatSourceTemperature := 9 }

/-- Classification input where every list holds 7 contributors and the
transfer pass left temperature 5 everywhere. -/
def classifyInputW : ClassifyInput :=
  { centreCount := fun _ => 7, faceXCount := fun _ => 7
    faceYCount := fun _ => 7, faceZCount := fun _ => 7
    centreTemperature := fun _ => 5 }

/-! General list-summation helpers. -/

theorem sum_map_flatMap {α β : Type} (l : List α) (f : α → List β) (g : β → ℚ) :
    (((l.flatMap f).map g)).sum = (l.map (fun a => ((f a).map g).sum)).sum := by
  induction l with
  | nil => simp
  | cons a t ih => simp [List.flatMap_cons, ih]

theorem sum_map_comm {α γ : Type} (L : List γ) (ps : List α) (F : α → γ → ℚ) :
    (L.map (fun c => (ps.map (fun p => F p c)).sum)).sum =
      (ps.map (fun p => (L.map (fun c => F p c)).sum)).sum := by
  induction ps with
  | nil => simp
  | cons p t ih =>
      simp only [List.map_cons, List.sum_cons, ← ih, ← List.sum_map_add]

theorem sum_map_filterMap {α β : Type} (ps : List α) (f : α → Option β)
    (g : β → ℚ) :
    (((ps.filterMap f).map g)).sum =
      (ps.map (fun a => Option.elim (f a) 0 g)).sum := by
  induction ps with
  | nil => simp
  | cons a t ih =>
      rw [List.filterMap_cons]
      cases h : f a with
      | none => simp [h, ih]
      | some b => simp [h, ih]

/-- C1: the heat-diffusion solve of `Grid::calcTemperature` is never
performed: the function only stores each cell's current temperature as its
previous temperature and leaves every temperature unchanged, so no cell (in
particular no Interior cell) is updated by a solve of the implicit system. -/
theorem calcTemperature_no_solve (s : TempGridState) (c : Cell) :
    (calcTemperature s).temperature c = s.temperature c ∧
    (calcTemperature s).previousTemperature c = s.temperature c :=
  ⟨rfl, rfl⟩

/-- C2 counterexample: on the first step, the call sequence of `Grid::update`
differs from the sequence the claim states, because `classifyCells` runs
before `calcInitialParticleVolumes`, not after it. -/
theorem gridUpdateSequence_ne_spec :
    gridUpdateSequence true ≠ specUpdateSequence true := by
  decide

/-- C2 (amended): every call of `Grid::update` performs its sub-operations
in the order clear, accumulate, transfer, classify, then on the first step
only the initial-volume computation, then the deviatoric update, boundary
velocities, pressure projection, heat solve and scatter; in particular on
the first step cell classification precedes the initial-volume
computation. -/
theorem gridUpdateSequence_order (b : Bool) :
    gridUpdateSequence b =
      [StepOp.clearCellData, StepOp.findParticleContributionToCell,
       StepOp.transferParticleData, StepOp.classifyCells]
      ++ (if b then [StepOp.calcInitialParticleVolumes] else [])
      ++ [StepOp.calcDeviatoricVelocity, StepOp.setBoundaryVelocity,
          StepOp.projectVelocity, StepOp.calcTemperature,
          StepOp.updateParticleFromGrid] ∧
    (gridUpdateSequence true).indexOf StepOp.classifyCells <
      (gridUpdateSequence true).indexOf StepOp.calcInitialParticleVolumes := by
  refine ⟨rfl, ?_⟩
  decide

/-- C8: `Grid::setSurroundingTemperatures` stores both inputs unchanged: no
Celsius-to-Kelvin conversion by adding 273.15 takes place, contradicting the
function's own comment; with the Celsius inputs 20 and 100 the stored
ambient temperature is 20, not 293.15. -/
theorem setSurroundingTemperatures_no_conversion
    (a h : ℚ) (g : SurroundingTemps) :
    (setSurroundingTemperatures a h g).ambientTemperature = a ∧
    (setSurroundingTemperatures a h g).heatSourceTemperature = h ∧
    (setSurroundingTemperatures 20 100 g).ambientTemperature ≠ 20 + 27315/100 := by
  refine ⟨rfl, rfl, ?_⟩
  norm_num [setSurroundingTemperatures]

/-- C10: `Grid::getGrid` errors exactly when the singleton is still null,
i.e. when `Grid::createGrid` has not yet been called; the first
`createGrid` stores the constructed instance, and every later `createGrid`
call returns the stored instance unchanged, ignoring its origin,
bounding-box-size and cell-count arguments. -/
theorem grid_singleton_accessors :
    getGrid none = Except.error GridError.notCreated ∧
    (∀ g : GridCfg, getGrid (some g) = Except.ok g) ∧
    (∀ o B n, createGrid o B n none =
      (gridConstruct o B n, some (gridConstruct o B n))) ∧
    (∀ (g : GridCfg) o B n, createGrid o B n (some g) = (g, some g)) :=
  ⟨rfl, fun _ => rfl, fun _ _ _ => rfl, fun _ _ _ _ => rfl⟩

/-! Accumulation loops as sums. -/

theorem foldl_accumFace (em : EmitterConsts) (s : Site) (l : List InterpRecord)
    (fd : FaceData) :
    l.foldl (accumFace em s) fd =
      ⟨fd.mass + (l.map (fun r => r.cubicBSpline * r.particle.mass)).sum,
       fd.velocity + (l.map (fun r => (r.cubicBSpline * r.particle.mass) *
          faceVelocityComponent s r.particle.velocity)).sum,
       fd.heatConductivity + (l.map (fun r => (r.cubicBSpline * r.particle.mass) *
          heatConductivityOf em r.particle.phase)).sum⟩ := by
  induction l generalizing fd with
  | nil => simp
  | cons r t ih =>
      rw [List.foldl_cons, ih]
      simp only [accumFace, List.map_cons, List.sum_cons]
      exact congrArg₂ (fun a b => FaceData.mk a b _) (by ring) (by ring) |>.trans
        (congrArg (FaceData.mk _ _) (by ring))

theorem foldl_accumCentre_mass (em : EmitterConsts) (l : List InterpRecord)
    (cd : CentreData) :
    (l.foldl (accumCentre em) cd).mass =
      cd.mass + (l.map (fun r => r.cubicBSpline * r.particle.mass)).sum := by
  induction l generalizing cd with
  | nil => simp
  | cons r t ih =>
      rw [List.foldl_cons, ih]
      simp only [accumCentre, List.map_cons, List.sum_cons]
      ring

theorem transferCentre_mass (em : EmitterConsts) (l : List InterpRecord) :
    (transferCentre em l).mass =
      (l.map (fun r => r.cubicBSpline * r.particle.mass)).sum := by
  unfold transferCentre
  by_cases h : l.length ≠ 0
  · rw [if_pos h]
    simp [foldl_accumCentre_mass, clearedCentreData]
  · rw [if_neg h]
    have : l = [] := by
      simpa [List.length_eq_zero] using h
    simp [this, clearedCentreData]

/-- C3: for every cell face with a non-empty interpolation list, after
`Grid::transferParticleData` the stored face mass is the sum of the
`N_p * m_p`, the stored face-normal velocity is the sum of
`N_p * m_p * v_p . e` divided by the face mass, the stored conductivity is
the sum of `N_p * m_p * kappa_phase` divided by the face mass, and in
particular the sum of `N_p * m_p` equals the stored mass. -/
theorem transferFace_spec (em : EmitterConsts) (s : Site)
    (l : List InterpRecord) (hl : l ≠ []) :
    (transferFace em s l).mass =
      (l.map (fun r => r.cubicBSpline * r.particle.mass)).sum ∧
    (transferFace em s l).velocity =
      (l.map (fun r => (r.cubicBSpline * r.particle.mass) *
          faceVelocityComponent s r.particle.velocity)).sum /
        (transferFace em s l).mass ∧
    (transferFace em s l).heatConductivity =
      (l.map (fun r => (r.cubicBSpline * r.particle.mass) *
          heatConductivityOf em r.particle.phase)).sum /
        (transferFace em s l).mass := by
  have hlen : l.length ≠ 0 := by simpa [List.length_eq_zero] using hl
  unfold transferFace
  rw [if_pos hlen, foldl_accumFace]
  refine ⟨?_, ?_, ?_⟩
  · simp [clearedFaceData]
  · simp [clearedFaceData, mul_one_div, div_eq_mul_inv]
  · simp [clearedFaceData, mul_one_div, div_eq_mul_inv]

/-- Witness for C3 at a concrete one-record list. -/
theorem transferFace_spec_witness :
    ([recordW] ≠ ([] : List InterpRecord)) ∧
    ((transferFace emCE Site.faceX [recordW]).mass =
      ([recordW].map (fun r => r.cubicBSpline * r.particle.mass)).sum ∧
    (transferFace emCE Site.faceX [recordW]).velocity =
      ([recordW].map (fun r => (r.cubicBSpline * r.particle.mass) *
          faceVelocityComponent Site.faceX r.particle.velocity)).sum /
        (transferFace emCE Site.faceX [recordW]).mass ∧
    (transferFace emCE Site.faceX [recordW]).heatConductivity =
      ([recordW].map (fun r => (r.cubicBSpline * r.particle.mass) *
          heatConductivityOf emCE r.particle.phase)).sum /
        (transferFace emCE Site.faceX [recordW]).mass) :=
  ⟨by simp, transferFace_spec emCE Site.faceX [recordW] (by simp)⟩

/-! Analytic facts about the cubic B-spline kernel. -/

theorem calcCubicBSpline_nonneg (x : ℚ) : 0 ≤ calcCubicBSpline x := by
  unfold calcCubicBSpline
  split_ifs with h1 h2
  · have ha : 0 ≤ |x| := abs_nonneg x
    nlinarith [mul_nonneg ha (sq_nonneg (1 - |x|)), sq_abs x, h1.le]
  · have h3 : 0 ≤ 2 - |x| := by linarith
    have := pow_nonneg h3 3
    linarith
  · exact le_refl 0

theorem calcCubicBSpline_eq_zero (x : ℚ) (h : 2 ≤ |x|) :
    calcCubicBSpline x = 0 := by
  unfold calcCubicBSpline
  rw [if_neg (by push_neg; linarith), if_neg (by push_neg; linarith)]

theorem calcCubicBSpline_neg (x : ℚ) :
    calcCubicBSpline (-x) = calcCubicBSpline x := by
  unfold calcCubicBSpline
  rw [abs_neg, neg_sq]

theorem calcCubicBSpline_of_lt_one (x : ℚ) (h0 : 0 ≤ x) (h1 : x < 1) :
    calcCubicBSpline x = (1/2) * x^3 - x^2 + 2/3 := by
  unfold calcCubicBSpline
  rw [abs_of_nonneg h0, if_pos h1]

theorem calcCubicBSpline_of_one_le (x : ℚ) (h1 : 1 ≤ x) (h2 : x < 2) :
    calcCubicBSpline x = (2 - x)^3 / 6 := by
  unfold calcCubicBSpline
  rw [abs_of_nonneg (by linarith), if_neg (by push_neg; linarith), if_pos h2]

theorem calcCubicBSpline_partition (u : ℚ) (hl : -(1/2) ≤ u) (hr : u < 1/2) :
    calcCubicBSpline (u + 2) + calcCubicBSpline (u + 1) + calcCubicBSpline u +
      calcCubicBSpline (u - 1) + calcCubicBSpline (u - 2) +
      calcCubicBSpline (u - 3) = 1 := by
  have e6 : calcCubicBSpline (u - 3) = 0 :=
    calcCubicBSpline_eq_zero _ (by rw [abs_of_nonpos (by linarith)]; linarith)
  rcases lt_trichotomy u 0 with hu | hu | hu
  · have e1 : calcCubicBSpline (u + 2) = (2 - (u + 2))^3 / 6 :=
      calcCubicBSpline_of_one_le _ (by linarith) (by linarith)
    have e2 : calcCubicBSpline (u + 1) = (1/2) * (u + 1)^3 - (u + 1)^2 + 2/3 :=
      calcCubicBSpline_of_lt_one _ (by linarith) (by linarith)
    have e3 : calcCubicBSpline u = (1/2) * (-u)^3 - (-u)^2 + 2/3 := by
      rw [← calcCubicBSpline_neg u]
      exact calcCubicBSpline_of_lt_one _ (by linarith) (by linarith)
    have e4 : calcCubicBSpline (u - 1) = (2 - (1 - u))^3 / 6 := by
      rw [show u - 1 = -(1 - u) by ring, calcCubicBSpline_neg]
      exact calcCubicBSpline_of_one_le _ (by linarith) (by linarith)
    have e5 : calcCubicBSpline (u - 2) = 0 := by
      rw [show u - 2 = -(2 - u) by ring, calcCubicBSpline_neg]
      exact calcCubicBSpline_eq_zero _ (by rw [abs_of_nonneg (by linarith)]; linarith)
    rw [e1, e2, e3, e4, e5, e6]; ring
  · subst hu
    norm_num [calcCubicBSpline, abs_of_nonneg, abs_of_nonpos]
  · have e1 : calcCubicBSpline (u + 2) = 0 :=
      calcCubicBSpline_eq_zero _ (by rw [abs_of_nonneg (by linarith)]; linarith)
    have e2 : calcCubicBSpline (u + 1) = (2 - (u + 1))^3 / 6 :=
      calcCubicBSpline_of_one_le _ (by linarith) (by linarith)
    have e3 : calcCubicBSpline u = (1/2) * u^3 - u^2 + 2/3 :=
      calcCubicBSpline_of_lt_one _ (by linarith) (by linarith)
    have e4 : calcCubicBSpline (u - 1) = (1/2) * (1 - u)^3 - (1 - u)^2 + 2/3 := by
      rw [show u - 1 = -(1 - u) by ring, calcCubicBSpline_neg]
      exact calcCubicBSpline_of_lt_one _ (by linarith) (by linarith)
    have e5 : calcCubicBSpline (u - 2) = (2 - (2 - u))^3 / 6 := by
      rw [show u - 2 = -(2 - u) by ring, calcCubicBSpline_neg]
      exact calcCubicBSpline_of_one_le _ (by linarith) (by linarith)
    rw [e1, e2, e3, e4, e5, e6]; ring

/-! Membership in the per-cell interpolation lists. -/

theorem mem_siteList {g : GridCfg} {ps : List Particle} {s : Site} {c : Cell}
    {r : InterpRecord} :
    r ∈ siteList g ps s c ↔
      ∃ p ∈ ps, c ∈ candidateCells g p ∧ siteWeight g p s c ≠ 0 ∧
        r = ⟨p, siteWeight g p s c⟩ := by
  simp only [siteList, interpRecordAt, List.mem_filterMap]
  constructor
  · rintro ⟨p, hp, heq⟩
    by_cases hc : c ∈ candidateCells g p
    · rw [if_pos hc] at heq
      by_cases hw : siteWeight g p s c ≠ 0
      · rw [if_pos hw] at heq
        exact ⟨p, hp, hc, hw, (Option.some.inj heq).symm⟩
      · rw [if_neg hw] at heq; cases heq
    · rw [if_neg hc] at heq; cases heq
  · rintro ⟨p, hp, hc, hw, rfl⟩
    exact ⟨p, hp, by rw [if_pos hc, if_pos hw]⟩

/-- C9: the per-cell loops of `Grid::transferParticleData` cannot divide by
zero: the cleared zero aggregates are returned unchanged for faces and
centres whose interpolation list is empty, and when every particle mass is
positive the accumulated mass that the non-empty branch divides by is
strictly positive, because every stored weight is a non-zero value of the
non-negative B-spline product. -/
theorem transferParticleData_safety (g : GridCfg) (em : EmitterConsts)
    (ps : List Particle) (s : Site) (c : Cell)
    (hm : ∀ p ∈ ps, 0 < p.mass) :
    transferFace em s [] = clearedFaceData ∧
    transferCentre em [] = clearedCentreData ∧
    (siteList g ps s c ≠ [] →
      0 < ((siteList g ps s c).map
        (fun r => r.cubicBSpline * r.particle.mass)).sum) := by
  refine ⟨rfl, rfl, fun hne => ?_⟩
  apply List.sum_pos
  · intro a ha
    rw [List.mem_map] at ha
    obtain ⟨r, hr, rfl⟩ := ha
    rw [mem_siteList] at hr
    obtain ⟨p, hp, _, hw, rfl⟩ := hr
    have h0 : 0 ≤ siteWeight g p s c :=
      mul_nonneg (mul_nonneg (calcCubicBSpline_nonneg _)
        (calcCubicBSpline_nonneg _)) (calcCubicBSpline_nonneg _)
    exact mul_pos (lt_of_le_of_ne h0 (Ne.symm hw)) (hm p hp)
  · intro h
    exact hne (List.map_eq_nil_iff.mp h)

/-- Witness for C9 at a concrete configuration. -/
theorem transferParticleData_safety_witness :
    (∀ p ∈ [particleW], 0 < p.mass) ∧
    (transferFace emCE Site.faceX [] = clearedFaceData ∧
    transferCentre emCE [] = clearedCentreData ∧
    (siteList gridW [particleW] Site.faceX (2, 2, 2) ≠ [] →
      0 < ((siteList gridW [particleW] Site.faceX (2, 2, 2)).map
        (fun r => r.cubicBSpline * r.particle.mass)).sum)) :=
  ⟨by norm_num [particleW],
   transferParticleData_safety gridW emCE [particleW] Site.faceX (2, 2, 2)
     (by norm_num [particleW])⟩

/-! The candidate-cell block of the accumulation pass. -/

theorem axisRange_eq (a : ℤ) :
    axisRange a = [a - 2, a - 1, a, a + 1, a + 2, a + 3] := by
  rw [axisRange, show List.range 6 = [0, 1, 2, 3, 4, 5] from rfl]
  norm_num [List.cons.injEq]
  omega

theorem mem_axisRange {a i : ℤ} : i ∈ axisRange a ↔ a - 2 ≤ i ∧ i ≤ a + 3 := by
  rw [axisRange_eq]
  simp only [List.mem_cons, List.not_mem_nil, or_false]
  omega

theorem mem_candidateCellsUnclipped {g : GridCfg} {p : Particle} {c : Cell} :
    c ∈ candidateCellsUnclipped g p ↔
      c.1 ∈ axisRange (particleCellIndex g p).1 ∧
      c.2.1 ∈ axisRange (particleCellIndex g p).2.1 ∧
      c.2.2 ∈ axisRange (particleCellIndex g p).2.2 := by
  obtain ⟨i, j, k⟩ := c
  simp only [candidateCellsUnclipped, List.mem_flatMap, List.mem_map]
  constructor
  · rintro ⟨kk, hkk, jj, hjj, ii, hii, heq⟩
    cases heq
    exact ⟨hii, hjj, hkk⟩
  · rintro ⟨hi, hj, hk⟩
    exact ⟨k, hk, j, hj, i, hi, rfl⟩

theorem mem_candidateCells {g : GridCfg} {p : Particle} {c : Cell} :
    c ∈ candidateCells g p ↔
      ((particleCellIndex g p).1 - 2 ≤ c.1 ∧ c.1 ≤ (particleCellIndex g p).1 + 3 ∧
       (particleCellIndex g p).2.1 - 2 ≤ c.2.1 ∧
         c.2.1 ≤ (particleCellIndex g p).2.1 + 3 ∧
       (particleCellIndex g p).2.2 - 2 ≤ c.2.2 ∧
         c.2.2 ≤ (particleCellIndex g p).2.2 + 3 ∧
       inGridBounds g c) := by
  rw [candidateCells, List.mem_filter, mem_candidateCellsUnclipped,
    mem_axisRange, mem_axisRange, mem_axisRange, decide_eq_true_eq]
  tauto

/-- C7: for every particle, the accumulation pass visits exactly the 6x6x6
candidate cells `i_p-2 .. i_p+3` per axis clipped to `[0, n-1]`, and a
record for the particle is appended to a centre or face list exactly when
the cubic B-spline tensor-product weight at that site is non-zero; every
appended record stores that weight. -/
theorem findParticleContributionToCell_spec (g : GridCfg) (ps : List Particle)
    (p : Particle) (c : Cell) :
    (c ∈ candidateCells g p ↔
      ((particleCellIndex g p).1 - 2 ≤ c.1 ∧ c.1 ≤ (particleCellIndex g p).1 + 3 ∧
       (particleCellIndex g p).2.1 - 2 ≤ c.2.1 ∧
         c.2.1 ≤ (particleCellIndex g p).2.1 + 3 ∧
       (particleCellIndex g p).2.2 - 2 ≤ c.2.2 ∧
         c.2.2 ≤ (particleCellIndex g p).2.2 + 3 ∧
       inGridBounds g c)) ∧
    (∀ s : Site, (∃ r ∈ siteList g ps s c, r.particle = p) ↔
      (p ∈ ps ∧ c ∈ candidateCells g p ∧ siteWeight g p s c ≠ 0)) ∧
    (∀ s : Site, ∀ r ∈ siteList g ps s c,
      r.cubicBSpline = siteWeight g r.particle s c) := by
  refine ⟨mem_candidateCells, fun s => ?_, fun s r hr => ?_⟩
  · constructor
    · rintro ⟨r, hr, hrp⟩
      rw [mem_siteList] at hr
      obtain ⟨q, hq, hc, hw, rfl⟩ := hr
      have hqp : q = p := hrp
      subst hqp
      exact ⟨hq, hc, hw⟩
    · rintro ⟨hp, hc, hw⟩
      exact ⟨⟨p, siteWeight g p s c⟩, mem_siteList.mpr ⟨p, hp, hc, hw, rfl⟩, rfl⟩
  · rw [mem_siteList] at hr
    obtain ⟨q, _, _, _, rfl⟩ := hr
    rfl

/-! Branch analysis of the second classification pass. -/

theorem classifyCell_boundary (P : ClassifyParams) (inp : ClassifyInput)
    (c : Cell) (_hn : 4 ≤ P.noCells) (hc : cellInGrid P.noCells c)
    (hb : isBoundaryCell P.noCells c) :
    classifyCell P inp c =
      { centreState := State.Colliding
        centreTemperature :=
          if c.2.1 = 0 then P.heatSourceTemperature
          else if inp.centreCount c = 0 then P.ambientTemperature
          else inp.centreTemperature c
        faceXEmptied := false, faceYEmptied := false, faceZEmptied := false } := by
  obtain ⟨i, j, k⟩ := c
  have g1 : ¬¬ pass1FaceXColliding P.noCells (i, j, k) :=
    not_not_intro (Or.inl hb)
  have g2 : ¬ ((i, j, k).1 < P.noCells - 1 ∧
      ¬ pass1FaceXColliding P.noCells ((i, j, k).1 + 1, (i, j, k).2.1,
        (i, j, k).2.2)) := by
    unfold pass1FaceXColliding isBoundaryCell at *
    unfold cellInGrid at hc
    dsimp only at *
    omega
  have g3 : ¬¬ pass1FaceYColliding P.noCells (i, j, k) :=
    not_not_intro (Or.inl hb)
  have g4 : ¬ ((i, j, k).2.1 < P.noCells - 1 ∧
      ¬ pass1FaceYColliding P.noCells ((i, j, k).1, (i, j, k).2.1 + 1,
        (i, j, k).2.2)) := by
    unfold pass1FaceYColliding isBoundaryCell at *
    unfold cellInGrid at hc
    dsimp only at *
    omega
  have g5 : ¬¬ pass1FaceZColliding P.noCells (i, j, k) :=
    not_not_intro (Or.inl hb)
  have g6 : ¬ ((i, j, k).2.2 < P.noCells - 1 ∧
      ¬ pass1FaceZColliding P.noCells ((i, j, k).1, (i, j, k).2.1,
        (i, j, k).2.2 + 1)) := by
    unfold pass1FaceZColliding isBoundaryCell at *
    unfold cellInGrid at hc
    dsimp only at *
    omega
  rw [classifyCell, if_neg g1, if_neg g2, if_neg g3, if_neg g4, if_neg g5,
    if_neg g6]

theorem classifyCell_not_boundary (P : ClassifyParams) (inp : ClassifyInput)
    (c : Cell) (hn : 4 ≤ P.noCells)
    (hnb : ¬ isBoundaryCell P.noCells c) :
    (classifyCell P inp c).centreState = (classifyBranch P inp c).1 ∧
    (classifyCell P inp c).centreTemperature = (classifyBranch P inp c).2 := by
  obtain ⟨i, j, k⟩ := c
  by_cases h1 : pass1FaceXColliding P.noCells (i, j, k)
  · have h2 : (i, j, k).1 < P.noCells - 1 ∧
        ¬ pass1FaceXColliding P.noCells ((i, j, k).1 + 1, (i, j, k).2.1,
          (i, j, k).2.2) := by
      unfold pass1FaceXColliding isBoundaryCell at *
      dsimp only at *
      omega
    rw [classifyCell, if_neg (not_not_intro h1), if_pos h2]
    exact ⟨rfl, rfl⟩
  · rw [classifyCell, if_pos h1]
    exact ⟨rfl, rfl⟩

/-- C4 (with the spec's configuration validity `4 <= n`): after
`Grid::classifyCells`, every cell with an axis index 0 or n-1 is Colliding
and so are all three of its faces; X faces of cells with `i` in 0 or 1, Y
faces with `j` in 0 or 1 and Z faces with `k` in 0 or 1 are Colliding; and
every other cell centre is Interior when its own contributor count and the
contributor counts of its six surrounding lower and upper face lists all
exceed the threshold, and Empty otherwise. -/
theorem classifyCells_states_spec (P : ClassifyParams) (inp : ClassifyInput)
    (c : Cell) (hn : 4 ≤ P.noCells) (hc : cellInGrid P.noCells c) :
    (isBoundaryCell P.noCells c →
      (classifyCell P inp c).centreState = State.Colliding ∧
      classifyFaceXState P inp c = State.Colliding ∧
      classifyFaceYState P inp c = State.Colliding ∧
      classifyFaceZState P inp c = State.Colliding) ∧
    ((c.1 = 0 ∨ c.1 = 1) → classifyFaceXState P inp c = State.Colliding) ∧
    ((c.2.1 = 0 ∨ c.2.1 = 1) → classifyFaceYState P inp c = State.Colliding) ∧
    ((c.2.2 = 0 ∨ c.2.2 = 1) → classifyFaceZState P inp c = State.Colliding) ∧
    (¬ isBoundaryCell P.noCells c →
      (classifyCell P inp c).centreState =
        if (P.noParticlesThreshold < inp.centreCount c ∧
            P.noParticlesThreshold < inp.faceXCount c ∧
            P.noParticlesThreshold < inp.faceXCount (c.1 + 1, c.2.1, c.2.2) ∧
            P.noParticlesThreshold < inp.faceYCount c ∧
            P.noParticlesThreshold < inp.faceYCount (c.1, c.2.1 + 1, c.2.2) ∧
            P.noParticlesThreshold < inp.faceZCount c ∧
            P.noParticlesThreshold < inp.faceZCount (c.1, c.2.1, c.2.2 + 1))
        then State.Interior else State.Empty) := by
  refine ⟨fun hb => ?_, fun hx => ?_, fun hy => ?_, fun hz => ?_, fun hnb => ?_⟩
  · have hcl := classifyCell_boundary P inp c hn hc hb
    refine ⟨by rw [hcl], ?_, ?_, ?_⟩
    · rw [classifyFaceXState,
        if_pos (show pass1FaceXColliding P.noCells c from Or.inl hb)]
    · rw [classifyFaceYState,
        if_pos (show pass1FaceYColliding P.noCells c from Or.inl hb)]
    · rw [classifyFaceZState,
        if_pos (show pass1FaceZColliding P.noCells c from Or.inl hb)]
  · have hcoll : pass1FaceXColliding P.noCells c := by
      rcases hx with h0 | h1
      · exact Or.inl (Or.inl h0)
      · exact Or.inr h1
    rw [classifyFaceXState, if_pos hcoll]
  · have hcoll : pass1FaceYColliding P.noCells c := by
      rcases hy with h0 | h1
      · exact Or.inl (Or.inr (Or.inr (Or.inl h0)))
      · exact Or.inr h1
    rw [classifyFaceYState, if_pos hcoll]
  · have hcoll : pass1FaceZColliding P.noCells c := by
      rcases hz with h0 | h1
      · exact Or.inl (Or.inr (Or.inr (Or.inr (Or.inr (Or.inl h0)))))
      · exact Or.inr h1
    rw [classifyFaceZState, if_pos hcoll]
  · rw [(classifyCell_not_boundary P inp c hn hnb).1, classifyBranch]
    have hiff : interiorTest P inp c ↔
        (P.noParticlesThreshold < inp.centreCount c ∧
         P.noParticlesThreshold < inp.faceXCount c ∧
         P.noParticlesThreshold < inp.faceXCount (c.1 + 1, c.2.1, c.2.2) ∧
         P.noParticlesThreshold < inp.faceYCount c ∧
         P.noParticlesThreshold < inp.faceYCount (c.1, c.2.1 + 1, c.2.2) ∧
         P.noParticlesThreshold < inp.faceZCount c ∧
         P.noParticlesThreshold < inp.faceZCount (c.1, c.2.1, c.2.2 + 1)) := by
      have hxu : upperFaceXCount P inp c = inp.faceXCount (c.1 + 1, c.2.1, c.2.2) := by
        rw [upperFaceXCount, if_neg (by unfold isBoundaryCell at hnb; omega)]
      have hyu : upperFaceYCount P inp c = inp.faceYCount (c.1, c.2.1 + 1, c.2.2) := by
        rw [upperFaceYCount, if_neg (by unfold isBoundaryCell at hnb; omega)]
      have hzu : upperFaceZCount P inp c = inp.faceZCount (c.1, c.2.1, c.2.2 + 1) := by
        rw [upperFaceZCount, if_neg (by unfold isBoundaryCell at hnb; omega)]
      rw [interiorTest, hxu, hyu, hzu]
      tauto
    by_cases ht : interiorTest P inp c
    · rw [if_pos ht, if_pos (hiff.mp ht)]
    · rw [if_neg ht, if_neg (fun hx => ht (hiff.mpr hx))]

/-- Witness for C4: in a 4-cell grid with threshold 6 and every list holding
7 contributors, the interior cell (2,2,1) is classified Interior. -/
theorem classifyCells_states_spec_witness :
    ((4 : ℤ) ≤ classifyParamsW.noCells ∧
      cellInGrid classifyParamsW.noCells (2, 2, 1)) ∧
    (classifyCell classifyParamsW classifyInputW (2, 2, 1)).centreState =
      State.Interior := by
  refine ⟨⟨by decide, by decide⟩, ?_⟩
  have h := (classifyCells_states_spec classifyParamsW classifyInputW (2, 2, 1)
    (by decide) (by decide)).2.2.2.2 (by decide)
  rw [h, if_pos (by decide)]

/-- C6 counterexample: in a 4-cell grid, the boundary cell (0,2,2) ends up
Colliding away from the heat-source plane `j = 0` while particles did
contribute to it, and it keeps its transferred temperature 5 instead of
receiving the ambient temperature 3 the claim prescribes. -/
theorem classifyCells_temperature_ce :
    (classifyCell classifyParamsW classifyInputW (0, 2, 2)).centreState =
      State.Colliding ∧
    (classifyCell classifyParamsW classifyInputW (0, 2, 2)).centreTemperature ≠
      classifyParamsW.ambientTemperature := by
  constructor
  · decide
  · decide

/-- C6 (amended): after `Grid::classifyCells`, cells classified Empty hold
the ambient temperature; Colliding cells on the heat-source plane `j = 0`
hold the heat-source temperature; a Colliding cell off that plane holds the
ambient temperature only when no particle contributed to it, and otherwise
keeps the mass-weighted temperature left by the transfer pass. -/
theorem classifyCells_temperature_spec (P : ClassifyParams)
    (inp : ClassifyInput) (c : Cell) (hn : 4 ≤ P.noCells)
    (hc : cellInGrid P.noCells c) :
    ((classifyCell P inp c).centreState = State.Empty →
      (classifyCell P inp c).centreTemperature = P.ambientTemperature) ∧
    ((classifyCell P inp c).centreState = State.Colliding → c.2.1 = 0 →
      (classifyCell P inp c).centreTemperature = P.heatSourceTemperature) ∧
    ((classifyCell P inp c).centreState = State.Colliding → c.2.1 ≠ 0 →
      inp.centreCount c = 0 →
      (classifyCell P inp c).centreTemperature = P.ambientTemperature) ∧
    ((classifyCell P inp c).centreState = State.Colliding → c.2.1 ≠ 0 →
      inp.centreCount c ≠ 0 →
      (classifyCell P inp c).centreTemperature = inp.centreTemperature c) := by
  by_cases hb : isBoundaryCell P.noCells c
  · rw [classifyCell_boundary P inp c hn hc hb]
    by_cases hj : c.2.1 = 0
    · simp [hj]
    · by_cases h0 : inp.centreCount c = 0
      · simp [hj, h0]
      · simp [hj, h0]
  · obtain ⟨hs, ht⟩ := classifyCell_not_boundary P inp c hn hb
    rw [hs, ht, classifyBranch]
    by_cases hit : interiorTest P inp c
    · simp [hit]
    · simp [hit]

/-- Witness for C6 (amended) at the boundary cell (0,2,2) with contributing
particles: the transferred temperature is kept. -/
theorem classifyCells_temperature_spec_witness :
    ((4 : ℤ) ≤ classifyParamsW.noCells ∧
      cellInGrid classifyParamsW.noCells (0, 2, 2)) ∧
    (classifyCell classifyParamsW classifyInputW (0, 2, 2)).centreTemperature =
      classifyInputW.centreTemperature (0, 2, 2) := by
  refine ⟨⟨by decide, by decide⟩, ?_⟩
  exact (classifyCells_temperature_spec classifyParamsW classifyInputW (0, 2, 2)
    (by decide) (by decide)).2.2.2 (by decide) (by decide) (by decide)

/-! Mass accounting over the whole grid. -/

theorem floor_shift_bracket (x o h : ℚ) (hh : 0 < h) :
    -(1/2) ≤ (x - o)/h - (⌊(x - (o - h/2))/h⌋ : ℚ) ∧
    (x - o)/h - (⌊(x - (o - h/2))/h⌋ : ℚ) < 1/2 := by
  have he : (x - (o - h/2))/h = (x - o)/h + 1/2 := by
    field_simp
    ring
  rw [he]
  constructor
  · have h1 := Int.floor_le ((x - o)/h + 1/2)
    linarith
  · have h2 := Int.lt_floor_add_one ((x - o)/h + 1/2)
    push_cast at h2
    linarith

theorem calcCubicBSpline_support_zero (xh : ℚ) (a i : ℤ)
    (hb1 : -(1/2) ≤ xh - (a : ℚ)) (hb2 : xh - (a : ℚ) < 1/2)
    (hout : i < a - 2 ∨ a + 3 < i) :
    calcCubicBSpline (xh - (i : ℚ)) = 0 := by
  apply calcCubicBSpline_eq_zero
  rcases hout with hlt | hgt
  · have hiq : (i : ℚ) ≤ (a : ℚ) - 3 := by
      have : (i : ℤ) ≤ a - 3 := by omega
      exact_mod_cast this
    rw [abs_of_nonneg (by linarith)]
    linarith
  · have hiq : (a : ℚ) + 4 ≤ (i : ℚ) := by
      have : a + 4 ≤ (i : ℤ) := by omega
      exact_mod_cast this
    rw [abs_of_nonpos (by linarith)]
    linarith

theorem oneAxis_weight_sum (nn : ℕ) (xh : ℚ) (a : ℤ)
    (hb1 : -(1/2) ≤ xh - (a : ℚ)) (hb2 : xh - (a : ℚ) < 1/2)
    (h2 : 2 ≤ a) (h3 : a + 4 ≤ (nn : ℤ)) :
    ((List.range nn).map (fun i : ℕ => calcCubicBSpline (xh - (i : ℚ)))).sum = 1 := by
  set lo : ℕ := (a - 2).toNat with hlodef
  have hloZ : (lo : ℤ) = a - 2 := Int.toNat_of_nonneg (by omega)
  have e2 : List.range' 0 lo ++ List.range' lo (nn - lo) = List.range' 0 nn := by
    have h := List.range'_append 0 lo (nn - lo) 1
    rw [show (nn - lo) + lo = nn by omega] at h
    simpa using h
  have e3 : List.range' lo 6 ++ List.range' (lo + 6) (nn - lo - 6) =
      List.range' lo (nn - lo) := by
    have h := List.range'_append lo 6 (nn - lo - 6) 1
    rw [show (nn - lo - 6) + 6 = nn - lo by omega] at h
    simpa using h
  rw [List.range_eq_range', ← e2, ← e3, List.map_append, List.map_append,
    List.sum_append, List.sum_append]
  have hleft : ((List.range' 0 lo).map
      (fun i : ℕ => calcCubicBSpline (xh - (i : ℚ)))).sum = 0 := by
    apply List.sum_eq_zero
    intro x hx
    rw [List.mem_map] at hx
    obtain ⟨i, hi, rfl⟩ := hx
    rw [List.mem_range'_1] at hi
    exact calcCubicBSpline_support_zero xh a i hb1 hb2 (Or.inl (by omega))
  have hright : ((List.range' (lo + 6) (nn - lo - 6)).map
      (fun i : ℕ => calcCubicBSpline (xh - (i : ℚ)))).sum = 0 := by
    apply List.sum_eq_zero
    intro x hx
    rw [List.mem_map] at hx
    obtain ⟨i, hi, rfl⟩ := hx
    rw [List.mem_range'_1] at hi
    exact calcCubicBSpline_support_zero xh a i hb1 hb2 (Or.inr (by omega))
  have hmid : ((List.range' lo 6).map
      (fun i : ℕ => calcCubicBSpline (xh - (i : ℚ)))).sum = 1 := by
    have hr6 : List.range' lo 6 = [lo, lo+1, lo+2, lo+3, lo+4, lo+5] := by
      simp [List.range'_succ]
    rw [hr6]
    simp only [List.map_cons, List.map_nil, List.sum_cons, List.sum_nil,
      add_zero]
    have c0 : ((lo : ℕ) : ℚ) = (a : ℚ) - 2 := by exact_mod_cast hloZ
    have hp := calcCubicBSpline_partition (xh - (a : ℚ)) hb1 hb2
    push_cast
    rw [c0]
    ring_nf
    ring_nf at hp
    exact hp
  rw [hleft, hmid, hright]
  norm_num

theorem particleCellIndex_def (g : GridCfg) (p : Particle) :
    particleCellIndex g p =
      (⌊(p.position.x - (g.origin.x - g.cellSize/2)) / g.cellSize⌋,
       ⌊(p.position.y - (g.origin.y - g.cellSize/2)) / g.cellSize⌋,
       ⌊(p.position.z - (g.origin.z - g.cellSize/2)) / g.cellSize⌋) := rfl

theorem siteWeight_centre (g : GridCfg) (p : Particle) (c : Cell)
    (hh : g.cellSize ≠ 0) :
    siteWeight g p Site.centre c =
      calcCubicBSpline ((p.position.x - g.origin.x) / g.cellSize - (c.1 : ℚ)) *
      calcCubicBSpline ((p.position.y - g.origin.y) / g.cellSize - (c.2.1 : ℚ)) *
      calcCubicBSpline ((p.position.z - g.origin.z) / g.cellSize - (c.2.2 : ℚ)) := by
  have e1 : (p.position.x - ((c.1 : ℚ) * g.cellSize + g.origin.x)) / g.cellSize
      = (p.position.x - g.origin.x) / g.cellSize - (c.1 : ℚ) := by
    field_simp
    ring
  have e2 : (p.position.y - ((c.2.1 : ℚ) * g.cellSize + g.origin.y)) / g.cellSize
      = (p.position.y - g.origin.y) / g.cellSize - (c.2.1 : ℚ) := by
    field_simp
    ring
  have e3 : (p.position.z - ((c.2.2 : ℚ) * g.cellSize + g.origin.z)) / g.cellSize
      = (p.position.z - g.origin.z) / g.cellSize - (c.2.2 : ℚ) := by
    field_simp
    ring
  simp only [siteWeight, sitePosition]
  rw [e1, e2, e3]

/-- Witness for C7: the particle in the middle of `gridW` gets a record in
the centre list of its own cell. -/
theorem findParticleContributionToCell_spec_witness :
    ∃ r ∈ siteList gridW [particleW] Site.centre (2, 2, 2),
      r.particle = particleW := by
  apply ((findParticleContributionToCell_spec gridW [particleW] particleW
    (2, 2, 2)).2.1 Site.centre).mpr
  refine ⟨List.mem_singleton_self _, ?_, ?_⟩
  · rw [mem_candidateCells]
    have hidx : particleCellIndex gridW particleW = (2, 2, 2) := by
      rw [particleCellIndex_def]
      norm_num [gridW, particleW]
    rw [hidx]
    norm_num [inGridBounds, gridW]
  · have hb : calcCubicBSpline (-((1:ℚ)/2)) = 23/48 := by
      rw [calcCubicBSpline_neg,
        calcCubicBSpline_of_lt_one _ (by norm_num) (by norm_num)]
      norm_num
    rw [siteWeight_centre gridW particleW (2, 2, 2) (by norm_num [gridW])]
    norm_num [gridW, particleW, hb]

theorem mem_allCells {g : GridCfg} {c : Cell} :
    c ∈ allCells g ↔ inGridBounds g c := by
  obtain ⟨i, j, k⟩ := c
  simp only [allCells, List.mem_flatMap, List.mem_map, List.mem_range]
  unfold inGridBounds
  constructor
  · rintro ⟨kk, hkk, jj, hjj, ii, hii, heq⟩
    obtain ⟨rfl, rfl, rfl⟩ :
        ((ii : ℤ) = i ∧ (jj : ℤ) = j ∧ (kk : ℤ) = k) := by
      simpa [Prod.ext_iff] using heq
    dsimp only
    omega
  · rintro ⟨h1, h2, h3, h4, h5, h6⟩
    dsimp only at h1 h2 h3 h4 h5 h6
    refine ⟨k.toNat, by omega, j.toNat, by omega, i.toNat, by omega, ?_⟩
    rw [Int.toNat_of_nonneg h1, Int.toNat_of_nonneg h3, Int.toNat_of_nonneg h5]

theorem allCells_sum_factor (g : GridCfg) (fx fy fz : ℤ → ℚ) (m : ℚ) :
    ((allCells g).map (fun c => fx c.1 * fy c.2.1 * fz c.2.2 * m)).sum =
      ((List.range g.noCells.toNat).map (fun i : ℕ => fx (i : ℤ))).sum *
      ((List.range g.noCells.toNat).map (fun j : ℕ => fy (j : ℤ))).sum *
      ((List.range g.noCells.toNat).map (fun k : ℕ => fz (k : ℤ))).sum * m := by
  have inner2 : ∀ (j k : ℕ),
      (((List.range g.noCells.toNat).map
          (fun i : ℕ => (((i : ℤ), (j : ℤ), (k : ℤ)) : Cell))).map
        (fun c : Cell => fx c.1 * fy c.2.1 * fz c.2.2 * m)).sum =
      ((List.range g.noCells.toNat).map (fun i : ℕ => fx (i : ℤ))).sum *
        (fy (j : ℤ) * (fz (k : ℤ) * m)) := by
    intro j k
    rw [List.map_map]
    have hfun : ((fun c : Cell => fx c.1 * fy c.2.1 * fz c.2.2 * m) ∘
        (fun i : ℕ => (((i : ℤ), (j : ℤ), (k : ℤ)) : Cell))) =
        fun i : ℕ => fx (i : ℤ) * (fy (j : ℤ) * (fz (k : ℤ) * m)) := by
      funext i
      simp only [Function.comp]
      ring
    rw [hfun, List.sum_map_mul_right]
  have inner1 : ∀ k : ℕ,
      (((List.range g.noCells.toNat).flatMap (fun j : ℕ =>
          (List.range g.noCells.toNat).map
            (fun i : ℕ => (((i : ℤ), (j : ℤ), (k : ℤ)) : Cell)))).map
        (fun c : Cell => fx c.1 * fy c.2.1 * fz c.2.2 * m)).sum =
      ((List.range g.noCells.toNat).map (fun i : ℕ => fx (i : ℤ))).sum *
        (((List.range g.noCells.toNat).map (fun j : ℕ => fy (j : ℤ))).sum *
          (fz (k : ℤ) * m)) := by
    intro k
    rw [sum_map_flatMap]
    rw [List.map_congr_left (fun j _ => inner2 j k)]
    rw [List.sum_map_mul_left, List.sum_map_mul_right]
  rw [allCells, sum_map_flatMap]
  rw [List.map_congr_left (fun k _ => inner1 k)]
  rw [List.sum_map_mul_left, List.sum_map_mul_left, List.sum_map_mul_right]
  ring

theorem siteList_mass_sum (g : GridCfg) (ps : List Particle) (s : Site)
    (c : Cell) :
    ((siteList g ps s c).map (fun r => r.cubicBSpline * r.particle.mass)).sum =
      (ps.map (fun p => if c ∈ candidateCells g p
        then siteWeight g p s c * p.mass else 0)).sum := by
  rw [siteList, sum_map_filterMap]
  refine congrArg _ (List.map_congr_left (fun p _ => ?_))
  by_cases hc : c ∈ candidateCells g p
  · rw [if_pos hc, if_pos hc]
    unfold interpRecordAt
    by_cases hw : siteWeight g p s c ≠ 0
    · rw [if_pos hw]
      rfl
    · push_neg at hw
      simp [hw]
  · rw [if_neg hc, if_neg hc]
    rfl

theorem totalCentreMass_eq (g : GridCfg) (em : EmitterConsts)
    (ps : List Particle) :
    totalCentreMass g em ps =
      (ps.map (fun p => ((allCells g).map (fun c =>
        if c ∈ candidateCells g p then siteWeight g p Site.centre c * p.mass
        else 0)).sum)).sum := by
  unfold totalCentreMass
  simp only [transferCentre_mass, siteList_mass_sum]
  exact sum_map_comm _ _ _

theorem perParticle_contribution (g : GridCfg) (p : Particle)
    (hh : 0 < g.cellSize)
    (hx1 : 2 ≤ (particleCellIndex g p).1)
    (hx2 : (particleCellIndex g p).1 + 4 ≤ g.noCells)
    (hy1 : 2 ≤ (particleCellIndex g p).2.1)
    (hy2 : (particleCellIndex g p).2.1 + 4 ≤ g.noCells)
    (hz1 : 2 ≤ (particleCellIndex g p).2.2)
    (hz2 : (particleCellIndex g p).2.2 + 4 ≤ g.noCells) :
    ((allCells g).map (fun c => if c ∈ candidateCells g p
        then siteWeight g p Site.centre c * p.mass else 0)).sum = p.mass := by
  have hbx := floor_shift_bracket p.position.x g.origin.x g.cellSize hh
  have hby := floor_shift_bracket p.position.y g.origin.y g.cellSize hh
  have hbz := floor_shift_bracket p.position.z g.origin.z g.cellSize hh
  rw [particleCellIndex_def] at hx1 hx2 hy1 hy2 hz1 hz2
  dsimp only at hx1 hx2 hy1 hy2 hz1 hz2
  have hpw : ∀ c ∈ allCells g,
      (if c ∈ candidateCells g p then siteWeight g p Site.centre c * p.mass
        else 0) = siteWeight g p Site.centre c * p.mass := by
    intro c hcmem
    by_cases hc : c ∈ candidateCells g p
    · rw [if_pos hc]
    · rw [if_neg hc]
      rw [mem_candidateCells] at hc
      rw [mem_allCells] at hcmem
      rw [particleCellIndex_def] at hc
      dsimp only at hc
      have hdis :
          c.1 < ⌊(p.position.x - (g.origin.x - g.cellSize/2)) / g.cellSize⌋ - 2 ∨
          ⌊(p.position.x - (g.origin.x - g.cellSize/2)) / g.cellSize⌋ + 3 < c.1 ∨
          c.2.1 < ⌊(p.position.y - (g.origin.y - g.cellSize/2)) / g.cellSize⌋ - 2 ∨
          ⌊(p.position.y - (g.origin.y - g.cellSize/2)) / g.cellSize⌋ + 3 < c.2.1 ∨
          c.2.2 < ⌊(p.position.z - (g.origin.z - g.cellSize/2)) / g.cellSize⌋ - 2 ∨
          ⌊(p.position.z - (g.origin.z - g.cellSize/2)) / g.cellSize⌋ + 3 < c.2.2 := by
        unfold inGridBounds at hcmem hc
        omega
      rw [siteWeight_centre g p c (ne_of_gt hh)]
      rcases hdis with h | h | h | h | h | h
      · rw [calcCubicBSpline_support_zero _ _ _ hbx.1 hbx.2 (Or.inl h)]
        ring
      · rw [calcCubicBSpline_support_zero _ _ _ hbx.1 hbx.2 (Or.inr h)]
        ring
      · rw [calcCubicBSpline_support_zero _ _ _ hby.1 hby.2 (Or.inl h)]
        ring
      · rw [calcCubicBSpline_support_zero _ _ _ hby.1 hby.2 (Or.inr h)]
        ring
      · rw [calcCubicBSpline_support_zero _ _ _ hbz.1 hbz.2 (Or.inl h)]
        ring
      · rw [calcCubicBSpline_support_zero _ _ _ hbz.1 hbz.2 (Or.inr h)]
        ring
  rw [List.map_congr_left hpw]
  rw [List.map_congr_left
    (fun c _ => by rw [siteWeight_centre g p c (ne_of_gt hh)])]
  rw [allCells_sum_factor g
    (fun i => calcCubicBSpline ((p.position.x - g.origin.x) / g.cellSize - (i : ℚ)))
    (fun j => calcCubicBSpline ((p.position.y - g.origin.y) / g.cellSize - (j : ℚ)))
    (fun k => calcCubicBSpline ((p.position.z - g.origin.z) / g.cellSize - (k : ℚ)))
    p.mass]
  simp only [Int.cast_natCast]
  rw [oneAxis_weight_sum _ _ _ hbx.1 hbx.2 hx1 (by omega),
      oneAxis_weight_sum _ _ _ hby.1 hby.2 hy1 (by omega),
      oneAxis_weight_sum _ _ _ hbz.1 hbz.2 hz1 (by omega)]
  ring

/-- C5 (amended): after `Grid::transferParticleData`, the total mass over
all cell centres equals the total particle mass for every configuration in
which each particle's cell index lies in `[2, n-4]` on every axis, so that no
non-zero B-spline weight is clipped at the grid border; a particle whose
support reaches beyond the border cells loses its clipped weight. -/
theorem transferParticleData_mass_conservation (g : GridCfg)
    (em : EmitterConsts) (ps : List Particle) (hh : 0 < g.cellSize)
    (hp : ∀ p ∈ ps,
      2 ≤ (particleCellIndex g p).1 ∧
      (particleCellIndex g p).1 + 4 ≤ g.noCells ∧
      2 ≤ (particleCellIndex g p).2.1 ∧
      (particleCellIndex g p).2.1 + 4 ≤ g.noCells ∧
      2 ≤ (particleCellIndex g p).2.2 ∧
      (particleCellIndex g p).2.2 + 4 ≤ g.noCells) :
    totalCentreMass g em ps = totalParticleMass ps := by
  rw [totalCentreMass_eq, totalParticleMass]
  refine congrArg List.sum (List.map_congr_left fun p hps => ?_)
  obtain ⟨a1, a2, a3, a4, a5, a6⟩ := hp p hps
  exact perParticle_contribution g p hh a1 a2 a3 a4 a5 a6

/-- Witness for C5 (amended): one unit-mass particle well inside a 6-cell
grid; the totals agree. -/
theorem transferParticleData_mass_conservation_witness :
    (0 < gridW.cellSize ∧ (∀ p ∈ [particleW],
      2 ≤ (particleCellIndex gridW p).1 ∧
      (particleCellIndex gridW p).1 + 4 ≤ gridW.noCells ∧
      2 ≤ (particleCellIndex gridW p).2.1 ∧
      (particleCellIndex gridW p).2.1 + 4 ≤ gridW.noCells ∧
      2 ≤ (particleCellIndex gridW p).2.2 ∧
      (particleCellIndex gridW p).2.2 + 4 ≤ gridW.noCells)) ∧
    totalCentreMass gridW emCE [particleW] = totalParticleMass [particleW] := by
  have hidx : particleCellIndex gridW particleW = (2, 2, 2) := by
    rw [particleCellIndex_def]
    norm_num [gridW, particleW]
  have hhyp : ∀ p ∈ [particleW],
      2 ≤ (particleCellIndex gridW p).1 ∧
      (particleCellIndex gridW p).1 + 4 ≤ gridW.noCells ∧
      2 ≤ (particleCellIndex gridW p).2.1 ∧
      (particleCellIndex gridW p).2.1 + 4 ≤ gridW.noCells ∧
      2 ≤ (particleCellIndex gridW p).2.2 ∧
      (particleCellIndex gridW p).2.2 + 4 ≤ gridW.noCells := by
    intro p hpmem
    rw [List.mem_singleton] at hpmem
    subst hpmem
    rw [hidx]
    norm_num [gridW]
  exact ⟨⟨by norm_num [gridW], hhyp⟩,
    transferParticleData_mass_conservation gridW emCE [particleW]
      (by norm_num [gridW]) hhyp⟩

/-- C5 counterexample: a unit-mass particle at (3/5, 3/2, 3/2) in the 4-cell
grid `gridCE` has part of its x-axis B-spline support clipped at the grid
border, and the total cell-centre mass after transfer is 371/375, not the
total particle mass 1. -/
theorem totalCentreMass_ce :
    totalCentreMass gridCE emCE [particleCE] ≠ totalParticleMass [particleCE] := by
  have hidx : particleCellIndex gridCE particleCE = (1, 2, 2) := by
    rw [particleCellIndex_def]
    norm_num [gridCE, particleCE]
  have hn4 : gridCE.noCells = 4 := rfl
  have hall : ∀ c ∈ allCells gridCE, c ∈ candidateCells gridCE particleCE := by
    intro c hcmem
    rw [mem_allCells] at hcmem
    rw [mem_candidateCells, hidx]
    unfold inGridBounds at hcmem ⊢
    rw [hn4] at hcmem ⊢
    dsimp only
    omega
  rw [totalCentreMass_eq]
  simp only [List.map_cons, List.map_nil, List.sum_cons, List.sum_nil, add_zero]
  rw [List.map_congr_left (fun c hc => by rw [if_pos (hall c hc)])]
  rw [List.map_congr_left (fun c _ => by
    rw [siteWeight_centre gridCE particleCE c (by norm_num [gridCE])])]
  rw [allCells_sum_factor gridCE
    (fun i => calcCubicBSpline
      ((particleCE.position.x - gridCE.origin.x) / gridCE.cellSize - (i : ℚ)))
    (fun j => calcCubicBSpline
      ((particleCE.position.y - gridCE.origin.y) / gridCE.cellSize - (j : ℚ)))
    (fun k => calcCubicBSpline
      ((particleCE.position.z - gridCE.origin.z) / gridCE.cellSize - (k : ℚ)))
    particleCE.mass]
  have a1 : calcCubicBSpline ((3:ℚ)/5) = 311/750 := by
    rw [calcCubicBSpline_of_lt_one _ (by norm_num) (by norm_num)]
    norm_num
  have a2 : calcCubicBSpline (-((2:ℚ)/5)) = 404/750 := by
    rw [calcCubicBSpline_neg,
      calcCubicBSpline_of_lt_one _ (by norm_num) (by norm_num)]
    norm_num
  have a3 : calcCubicBSpline (-((7:ℚ)/5)) = 27/750 := by
    rw [calcCubicBSpline_neg,
      calcCubicBSpline_of_one_le _ (by norm_num) (by norm_num)]
    norm_num
  have a4 : calcCubicBSpline (-((12:ℚ)/5)) = 0 := by
    rw [calcCubicBSpline_neg]
    exact calcCubicBSpline_eq_zero _ (by rw [abs_of_nonneg] <;> norm_num)
  have b1 : calcCubicBSpline ((3:ℚ)/2) = 1/48 := by
    rw [calcCubicBSpline_of_one_le _ (by norm_num) (by norm_num)]
    norm_num
  have b2 : calcCubicBSpline ((1:ℚ)/2) = 23/48 := by
    rw [calcCubicBSpline_of_lt_one _ (by norm_num) (by norm_num)]
    norm_num
  have b3 : calcCubicBSpline (-((1:ℚ)/2)) = 23/48 := by
    rw [calcCubicBSpline_neg]
    exact b2
  have b4 : calcCubicBSpline (-((3:ℚ)/2)) = 1/48 := by
    rw [calcCubicBSpline_neg]
    exact b1
  norm_num [totalParticleMass, particleCE, gridCE,
    show ((4:ℤ)).toNat = 4 from rfl,
    show List.range 4 = [0, 1, 2, 3] from rfl,
    a1, a2, a3, a4, b1, b2, b3, b4]

end MeltSim
